import Mathlib

/-!
Shallow embedding of `src/graph_query_handler.py` (class `GraphQueryHandler`).

The two external collaborators are modelled as explicit functions:
the language-model backend (`self.llm`, shared by the router, cypher and
explanation chains) and the graph backend (`self.graph.query`).  A raised
Python exception is modelled as `Except.error`; a Python function that may
raise therefore returns `Except String _`.  To reason about which external
calls a run performs (needed for call-count properties), every function also
returns the ordered trace of the external calls it made, as a `List Call`.
-/

/-- A result row returned by the graph backend: a mapping from field names to
(string) values, modelled as an association list in field order. -/
abbrev Row := List (String × String)

/-- The external collaborators of `GraphQueryHandler`: `llm` is `self.llm`
(one completion function, shared by all three chains; `Except.error` is a
transport failure raised as an exception), `graph` is `self.graph.query`
(`Except.error` is a raised backend error carrying its message). -/
structure Env where
  llm : String → Except String String
  graph : String → Except String (List Row)

/-- ROUTER_TEMPLATE up to the \x7bquestion\x7d placeholder. -/
def ROUTER_TEMPLATE_PRE : String :=
  "\nYou are an expert at classifying user questions about a software codebase.\nYour task is to categorize the user\x27s question into one of two types:\n\n1. `cypher_lookup`: The user is asking to find, list, count, or locate entities.\n   These questions can be answered by querying the graph structure.\n   Examples: \"List all classes in the policyissuance repository.\", \"Which methods does the \x27UserService\x27 class have?\", \"Find all controllers.\"\n\n2. `method_explanation`: The user is asking for an explanation, summary, or description of a specific method\x27s functionality.\n   Examples: \"Explain the functionality of the \x27calculatePremium\x27 method.\", \"What does the \x27validateUser\x27 method do?\", \"Summarize the \x27ConnectToDatabase\x27 method.\"\n\nBased on the user\x27s question below, provide one of the two category labels and nothing else.\n\n<QUESTION>\n"

/-- ROUTER_TEMPLATE after the \x7bquestion\x7d placeholder. -/
def ROUTER_TEMPLATE_POST : String :=
  "\n</QUESTION>\n\nCategory:\n"

/-- The prompt produced by `PromptTemplate.from_template(ROUTER_TEMPLATE)` for a
given question: the template with `question` substituted for its placeholder. -/
def routerPrompt (question : String) : String :=
  ROUTER_TEMPLATE_PRE ++ question ++ ROUTER_TEMPLATE_POST

/-- CYPHER_GENERATION_TEMPLATE up to the \x7bschema\x7d placeholder.  The doubled
braces of the Python template render as single literal braces. -/
def CYPHER_TEMPLATE_PRE : String :=
  "\nYou are an expert Neo4j developer, skilled at writing precise and efficient Cypher queries.\n\n<INSTRUCTIONS>\n1.  Your task is to convert a user\x27s question in natural language into a syntactically correct Cypher query.\n2.  Base your query ONLY on the schema provided. Do not use any node labels or relationship types not listed in the schema.\n3.  For repository, class, or method names, use the `name` property in a `WHERE` clause (e.g., `WHERE n.name = \x27calculatePremium\x27`).\n4.  If the user asks for an explanation of a method, you MUST generate a query to retrieve its `source` property. Example: `MATCH (m:Method \x7bname: \x27calculatePremium\x27\x7d) RETURN m.source AS source_code`.\n5.  Your response MUST be ONLY the Cypher query. Do not include any introductory text, explanations, or markdown backticks.\n</INSTRUCTIONS>\n\n<SCHEMA>\n"

/-- CYPHER_GENERATION_TEMPLATE between the \x7bschema\x7d and \x7bexamples\x7d placeholders. -/
def CYPHER_TEMPLATE_MID1 : String :=
  "\n</SCHEMA>\n\n<EXAMPLES>\n"

/-- CYPHER_GENERATION_TEMPLATE between the \x7bexamples\x7d and \x7bquestion\x7d placeholders. -/
def CYPHER_TEMPLATE_MID2 : String :=
  "\n</EXAMPLES>\n\n<QUESTION>\n"

/-- CYPHER_GENERATION_TEMPLATE after the \x7bquestion\x7d placeholder. -/
def CYPHER_TEMPLATE_POST : String :=
  "\n</QUESTION>\n\nCypher Query:\n"

/-- The input dict passed to `self.cypher_chain.invoke` at both call sites:
keys `schema`, `examples`, `question` and `error_correction`. -/
structure CypherArgs where
  schema : String
  examples : String
  question : String
  error_correction : String
  deriving DecidableEq

/-- The prompt produced by `PromptTemplate.from_template(CYPHER_GENERATION_TEMPLATE)`
for the given invoke arguments.  CYPHER_GENERATION_TEMPLATE has placeholders only
for `schema`, `examples` and `question`; the `error_correction` entry of the
invoke dict matches no placeholder and is silently ignored by the f-string
formatting (Python `str.format` discards extra keyword arguments), so it does
not appear in the prompt. -/
def cypherPrompt (a : CypherArgs) : String :=
  CYPHER_TEMPLATE_PRE ++ a.schema ++ CYPHER_TEMPLATE_MID1 ++ a.examples ++
    CYPHER_TEMPLATE_MID2 ++ a.question ++ CYPHER_TEMPLATE_POST

/-- EXPLANATION_TEMPLATE up to the \x7bsource_code\x7d placeholder. -/
def EXPLANATION_TEMPLATE_PRE : String :=
  "\nYou are a senior software engineer acting as a helpful code assistant.\nYour task is to explain a method\x27s functionality based on its source code.\n\n<INSTRUCTIONS>\n1.  Analyze the provided source code, including its name, parameters, logic, and any inline comments.\n2.  Provide a clear, concise, and helpful explanation of what the method does, in a way that a non-expert could understand.\n3.  Start with a high-level summary of the method\x27s purpose.\n4.  If the method is complex, you can use bullet points to describe its key steps or logic.\n5.  Format your answer in clean Markdown.\n</INSTRUCTIONS>\n\n<SOURCE_CODE>\n"

/-- EXPLANATION_TEMPLATE after the \x7bsource_code\x7d placeholder. -/
def EXPLANATION_TEMPLATE_POST : String :=
  "\n</SOURCE_CODE>\n\nExplanation:\n"

/-- The prompt produced by `PromptTemplate.from_template(EXPLANATION_TEMPLATE)`
for a given source_code value. -/
def explanationPrompt (source_code : String) : String :=
  EXPLANATION_TEMPLATE_PRE ++ source_code ++ EXPLANATION_TEMPLATE_POST

/-- Python `str.strip()` with no argument: remove leading and trailing
whitespace characters. -/
def pyStrip (s : String) : String :=
  String.mk (((s.data.dropWhile Char.isWhitespace).reverse.dropWhile
    Char.isWhitespace).reverse)

/-- Python `str.lower()`: lowercase every character. -/
def pyLower (s : String) : String :=
  String.mk (s.data.map Char.toLower)

/-- The few-shot `examples` list of `_handle_cypher_lookup`, as
(question, query) pairs. -/
def fewShotExamples : List (String × String) :=
  [("Find all classes in the repository \x27exampleRepo\x27.",
    "MATCH (r:Repository \x7bname: \x27exampleRepo\x27\x7d)-[:HAS_CLASSES]->(c:Class) RETURN c.name AS ClassName, c.file_path AS FilePath"),
   ("Which repositories depend on \x27core-library\x27?",
    "MATCH (r:Repository)-[:DEPENDS_ON]->(:Repository \x7bname: \x27core-library\x27\x7d) RETURN r.name AS DependentRepository"),
   ("What are the controllers in \x27api-gateway\x27?",
    "MATCH (:Repository \x7bname: \x27api-gateway\x27\x7d)-[:HAS_ROUTES]->(c:Controller) RETURN c.name AS ControllerName")]

/-- `example_text` of `_handle_cypher_lookup`:
`"\n\n".join(f"Question: \x7bex[q]\x7d\nCypher: \x7bex[query]\x7d" for ex in examples)`. -/
def exampleText : String :=
  String.intercalate "\n\n"
    (fewShotExamples.map (fun ex => "Question: " ++ ex.1 ++ "\nCypher: " ++ ex.2))

/-- One entry of the Python `intermediate_steps` list (each entry is a
one-key dict; the constructor records which key):
`recognizedIntent` is `\x7b"recognized_intent": ...\x7d`,
`cypherQueryGenerationAttempt` is `\x7b"cypher_query_generation_attempt": ...\x7d`,
`statusMsg` is `\x7b"status": ...\x7d`, and
`fetchCodeCypher` is `\x7b"fetch_code_cypher": ...\x7d`. -/
inductive Step where
  | recognizedIntent (intent : String)
  | cypherQueryGenerationAttempt (q : String)
  | statusMsg (s : String)
  | fetchCodeCypher (q : String)
  deriving DecidableEq

/-- A Python value stored in the returned result dict. -/
inductive PyVal where
  | rows (rs : List Row)
  | str (s : String)
  | stepList (l : List Step)
  | num (n : Nat)
  deriving DecidableEq

/-- A Python dict in insertion order with unique keys, as returned by the
handlers and by `run_query`. -/
abbrev Envelope := List (String × PyVal)

/-- One external call performed during a run: a router-chain, cypher-chain or
explanation-chain model invocation (recording its input), or a graph query. -/
inductive Call where
  | router (prompt : String)
  | cypher (args : CypherArgs)
  | explanation (source_code : String)
  | graph (query : String)
  deriving DecidableEq

/-- The arguments of the cypher-chain invocations in a trace, in order. -/
def cypherCalls (t : List Call) : List CypherArgs :=
  t.filterMap (fun c => match c with | Call.cypher a => some a | _ => none)

/-- The source_code inputs of the explanation-chain invocations in a trace, in order. -/
def explanationCalls (t : List Call) : List String :=
  t.filterMap (fun c => match c with | Call.explanation s => some s | _ => none)

/-- The query strings of the graph-backend invocations in a trace, in order. -/
def graphCalls (t : List Call) : List String :=
  t.filterMap (fun c => match c with | Call.graph q => some q | _ => none)

/-- Embedding of `get_concise_schema`.  `node_labels` is the `label` column
returned by `CALL db.labels()`, `relationship_types` the `relationshipType`
column returned by `CALL db.relationshipTypes()`; the Python produces one
"- "-prefixed line per row and joins with the shown headers. -/
def get_concise_schema (node_labels relationship_types : List String) : String :=
  "Node Labels:\n" ++ String.intercalate "\n" (node_labels.map (fun l => "- " ++ l)) ++
  "\n\nRelationships:\n" ++ String.intercalate "\n" (relationship_types.map (fun r => "- " ++ r))

/-- The failure result text of `_handle_cypher_lookup` after the loop exits. -/
def failureText (error_message : String) : String :=
  "Failed to execute a valid query. Last error: " ++ error_message

/-- The `while retries <= max_retries` loop of `_handle_cypher_lookup`.
`fuel` is the number of remaining iterations, `max_retries + 1 - retries`
(the guard `retries <= max_retries` holds iff `fuel > 0`); `error_message`,
`steps` and `calls` thread the Python locals `error_message` and
`intermediate_steps` and the call trace.  Each iteration invokes the cypher
chain (an uncaught model failure propagates), strips the completion, records
the attempt, and executes it: on success it returns the rows with a
`\x7b"status": "Success"\x7d` step, on a caught exception it retries with the
new `error_message`; when the guard fails the failure text is returned. -/
def lookupLoop (env : Env) (schema question : String) :
    Nat → String → List Step → List Call → Except String Envelope × List Call
  | 0, error_message, steps, calls =>
      (Except.ok [("result", PyVal.str (failureText error_message)),
                  ("intermediate_steps", PyVal.stepList steps)], calls)
  | fuel + 1, _error_message, steps, calls =>
      let args : CypherArgs := ⟨schema, exampleText, question, ""⟩
      let calls1 := calls ++ [Call.cypher args]
      match env.llm (cypherPrompt args) with
      | Except.error e => (Except.error e, calls1)
      | Except.ok completion =>
        let generated_cypher := pyStrip completion
        let steps1 := steps ++ [Step.cypherQueryGenerationAttempt generated_cypher]
        let calls2 := calls1 ++ [Call.graph generated_cypher]
        match env.graph generated_cypher with
        | Except.ok result =>
            (Except.ok [("result", PyVal.rows result),
                        ("intermediate_steps",
                         PyVal.stepList (steps1 ++ [Step.statusMsg "Success"]))], calls2)
        | Except.error e => lookupLoop env schema question fuel e steps1 calls2

/-- Embedding of `_handle_cypher_lookup(self, question, intermediate_steps,
max_retries=1)`.  `schema` is `self.concise_schema`; the loop starts with
`retries = 0`, `error_message = ""`, so the fuel is `max_retries + 1`. -/
def handleCypherLookup (env : Env) (schema question : String) (steps : List Step)
    (max_retries : Nat) : Except String Envelope × List Call :=
  lookupLoop env schema question (max_retries + 1) "" steps []

/-- The fixed result text of `_handle_method_explanation` when the fetch
result is empty or its first row has no `source_code` key. -/
def notFoundText : String :=
  "I found the method, but I couldn\x27t retrieve its source code to explain."

/-- The result text of `_handle_method_explanation` when the `try` block
catches an exception `e`. -/
def errorOccurredText (e : String) : String :=
  "An error occurred. I may have generated a bad query to find the method. Error: " ++ e

/-- Embedding of `_handle_method_explanation(self, question, intermediate_steps)`.
The fetch-query generation call is outside the `try` block, so its failure
propagates; the graph execution and the explanation-chain call are inside it,
so their failures are caught and rendered as `errorOccurredText`.  The guard
`if not code_data or \x27source_code\x27 not in code_data[0]` is modelled by the
nested matches on the row list and on `row0.lookup "source_code"`. -/
def handleMethodExplanation (env : Env) (schema question : String) (steps : List Step) :
    Except String Envelope × List Call :=
  let args : CypherArgs := ⟨schema, "", question, ""⟩
  let calls1 := [Call.cypher args]
  match env.llm (cypherPrompt args) with
  | Except.error e => (Except.error e, calls1)
  | Except.ok completion =>
    let fetch_code_cypher := pyStrip completion
    let steps1 := steps ++ [Step.fetchCodeCypher fetch_code_cypher]
    let calls2 := calls1 ++ [Call.graph fetch_code_cypher]
    match env.graph fetch_code_cypher with
    | Except.error e =>
        (Except.ok [("result", PyVal.str (errorOccurredText e)),
                    ("intermediate_steps", PyVal.stepList steps1)], calls2)
    | Except.ok code_data =>
      match code_data with
      | [] =>
          (Except.ok [("result", PyVal.str notFoundText),
                      ("intermediate_steps", PyVal.stepList steps1)], calls2)
      | row0 :: _ =>
        match row0.lookup "source_code" with
        | none =>
            (Except.ok [("result", PyVal.str notFoundText),
                        ("intermediate_steps", PyVal.stepList steps1)], calls2)
        | some source_code =>
          let steps2 := steps1 ++ [Step.statusMsg "Source code retrieved successfully."]
          let calls3 := calls2 ++ [Call.explanation source_code]
          match env.llm (explanationPrompt source_code) with
          | Except.error e =>
              (Except.ok [("result", PyVal.str (errorOccurredText e)),
                          ("intermediate_steps", PyVal.stepList steps2)], calls3)
          | Except.ok explanation =>
              (Except.ok [("result", PyVal.str explanation),
                          ("intermediate_steps", PyVal.stepList steps2)], calls3)

/-- The fixed apology result text of `run_query` for an unrecognized intent. -/
def apologyText : String :=
  "I\x27m sorry, I can only answer questions to find code entities or to explain specific methods."

/-- Python dict item assignment `d[key] = v` on an insertion-ordered dict with
unique keys: overwrite in place when the key exists, append otherwise. -/
def dictSet : Envelope → String → PyVal → Envelope
  | [], key, v => [(key, v)]
  | (k, w) :: rest, key, v =>
      if k = key then (key, v) :: rest else (k, w) :: dictSet rest key v

/-- Embedding of `run_query(self, question)`.  `schema` is `self.concise_schema`
and `duration_seconds` stands for the measured `round(time.time() - start_time, 2)`
(its value is irrelevant to the control flow).  The router invocation is not
wrapped in any `try`, so a model failure propagates; the handler call sites
pass `intermediate_steps = [\x7b"recognized_intent": intent\x7d]`, and the
lookup handler is called without `max_retries`, hence with its default 1.
`result["duration_seconds"] = ...` is the final dict assignment. -/
def run_query (env : Env) (schema question : String) (duration_seconds : Nat) :
    Except String Envelope × List Call :=
  let rcall := [Call.router (routerPrompt question)]
  match env.llm (routerPrompt question) with
  | Except.error e => (Except.error e, rcall)
  | Except.ok completion =>
    let intent := pyLower (pyStrip completion)
    let intermediate_steps := [Step.recognizedIntent intent]
    if intent = "method_explanation" then
      match handleMethodExplanation env schema question intermediate_steps with
      | (Except.ok envl, calls) =>
          (Except.ok (dictSet envl "duration_seconds" (PyVal.num duration_seconds)),
           rcall ++ calls)
      | (Except.error e, calls) => (Except.error e, rcall ++ calls)
    else if intent = "cypher_lookup" then
      match handleCypherLookup env schema question intermediate_steps 1 with
      | (Except.ok envl, calls) =>
          (Except.ok (dictSet envl "duration_seconds" (PyVal.num duration_seconds)),
           rcall ++ calls)
      | (Except.error e, calls) => (Except.error e, rcall ++ calls)
    else
      (Except.ok (dictSet [("result", PyVal.str apologyText),
                           ("intermediate_steps", PyVal.stepList intermediate_steps)]
                    "duration_seconds" (PyVal.num duration_seconds)), rcall)

/-- Stub environment: the model always completes with a padded query and the
graph backend rejects every query with a fixed diagnostic. -/
def envFailGraph : Env :=
  ⟨fun _ => Except.ok " MATCH (n) RETURN n ",
   fun _ => Except.error "Neo.ClientError: invalid input"⟩

/-- Stub environment: every model call fails with a transport error while the
graph backend would answer normally. -/
def envLlmDown : Env :=
  ⟨fun _ => Except.error "connection refused", fun _ => Except.ok []⟩

/-- Stub environment: the model always completes with "FETCH" and the graph
backend returns no rows. -/
def envEmptyRows : Env :=
  ⟨fun _ => Except.ok "FETCH", fun _ => Except.ok []⟩

/-- Stub environment: the model always completes with "FETCH" and the graph
backend returns one row that has no source_code field. -/
def envNoSourceKey : Env :=
  ⟨fun _ => Except.ok "FETCH", fun _ => Except.ok [[("name", "m")]]⟩

/-- Stub environment: the model always completes with "FETCH" and the graph
backend returns one row whose source_code field is the empty string. -/
def envEmptySource : Env :=
  ⟨fun _ => Except.ok "FETCH", fun _ => Except.ok [[("source_code", "")]]⟩

/-- Stub environment: the model answers every prompt with a fenced code block
and the graph backend accepts every query. -/
def envFences : Env :=
  ⟨fun _ => Except.ok "```\nMATCH (n) RETURN n\n```", fun _ => Except.ok []⟩

/-- Stub environment: the model answers every prompt with "ok" and the graph
backend returns no rows. -/
def envOk : Env :=
  ⟨fun _ => Except.ok "ok", fun _ => Except.ok []⟩

/-- Stub environment: the model always completes with "FETCH" and the graph
backend returns a first row with source code followed by one extra row. -/
def envTwoRows : Env :=
  ⟨fun _ => Except.ok "FETCH",
   fun _ => Except.ok [[("source_code", "def f(): pass")], [("ignored", "x")]]⟩

/-- Stub environment: like envTwoRows but the graph backend returns only the
first row. -/
def envOneRow : Env :=
  ⟨fun _ => Except.ok "FETCH", fun _ => Except.ok [[("source_code", "def f(): pass")]]⟩

/-- C1 fails on the code: in a run where attempt 1 generates
"MATCH (n) RETURN n" and fails with "Neo.ClientError: invalid input", the
cypher-chain invocation of attempt 2 still carries an empty error_correction
argument, which neither equals nor contains attempt 1's query or error
message (and the generation prompt has no correction placeholder at all). -/
theorem C1_counterexample :
    (cypherCalls (handleCypherLookup envFailGraph "S" "q" [] 1).2).map
        CypherArgs.error_correction = ["", ""] ∧
    (handleCypherLookup envFailGraph "S" "q" [] 1).1 =
      Except.ok [("result", PyVal.str (failureText "Neo.ClientError: invalid input")),
                 ("intermediate_steps",
                  PyVal.stepList [Step.cypherQueryGenerationAttempt "MATCH (n) RETURN n",
                                  Step.cypherQueryGenerationAttempt "MATCH (n) RETURN n"])] ∧
    ¬ List.IsInfix "MATCH (n) RETURN n".data "".data ∧
    ¬ List.IsInfix "Neo.ClientError: invalid input".data "".data := by
  refine ⟨by decide, rfl, by decide, by decide⟩

/-- C2 fails on the code: with retry budget 1 and every execution failing, the
loop performs 2 generation calls (not at most 1), and the recorded steps are
two generation-attempt entries with no Failed marker and no per-attempt error
message; only the final result text carries the last error. -/
theorem C2_counterexample :
    (cypherCalls (handleCypherLookup envFailGraph "Sch" "list" [] 1).2).length = 2 ∧
    ¬ ((cypherCalls (handleCypherLookup envFailGraph "Sch" "list" [] 1).2).length ≤ 1) ∧
    (handleCypherLookup envFailGraph "Sch" "list" [] 1).1 =
      Except.ok [("result", PyVal.str (failureText "Neo.ClientError: invalid input")),
                 ("intermediate_steps",
                  PyVal.stepList [Step.cypherQueryGenerationAttempt "MATCH (n) RETURN n",
                                  Step.cypherQueryGenerationAttempt "MATCH (n) RETURN n"])] := by
  refine ⟨by decide, by decide, rfl⟩

/-- C3 fails on the code: the router-chain invocation in run_query is not
wrapped in any exception handler, so a model transport failure propagates out
of run_query instead of being captured into the result field. -/
theorem C3_counterexample :
    (run_query envLlmDown "S" "q" 0).1 = Except.error "connection refused" := rfl

/-- C4 fails on the code: get_concise_schema renders the relationships section
as bare relationship-type names; with labels Repository and Class and the
single type CONTAINS, the relationships section "- CONTAINS" names neither a
source nor a target category. -/
theorem C4_counterexample :
    get_concise_schema ["Repository", "Class"] ["CONTAINS"] =
      "Node Labels:\n- Repository\n- Class\n\nRelationships:\n- CONTAINS" ∧
    ¬ List.IsInfix "Repository".data "- CONTAINS".data ∧
    ¬ List.IsInfix "Class".data "- CONTAINS".data := by
  refine ⟨by decide, by decide, by decide⟩

/-- C5 fails on the code: the empty fetch result and the missing-source-field
cases return the same fixed message, not two distinct ones (though indeed
neither invokes the explanation chain), and a present-but-empty source_code
field is not treated as unavailable - the explanation model is invoked on the
empty string (call count 1, not 0). -/
theorem C5_counterexample :
    (handleMethodExplanation envEmptyRows "S" "q" []).1 =
      Except.ok [("result", PyVal.str notFoundText),
                 ("intermediate_steps", PyVal.stepList [Step.fetchCodeCypher "FETCH"])] ∧
    explanationCalls (handleMethodExplanation envEmptyRows "S" "q" []).2 = [] ∧
    (handleMethodExplanation envNoSourceKey "S" "q" []).1 =
      (handleMethodExplanation envEmptyRows "S" "q" []).1 ∧
    explanationCalls (handleMethodExplanation envNoSourceKey "S" "q" []).2 = [] ∧
    explanationCalls (handleMethodExplanation envEmptySource "S" "q" []).2 = [""] := by
  refine ⟨rfl, by decide, rfl, by decide, by decide⟩

/-- C8 fails on the code: the generated query is only whitespace-trimmed; a
completion wrapped in markdown code fences is executed with the fences intact,
so code-fence markers are not stripped. -/
theorem C8_counterexample :
    graphCalls (handleCypherLookup envFences "S" "q" [] 1).2 =
      ["```\nMATCH (n) RETURN n\n```"] ∧
    "```\nMATCH (n) RETURN n\n```" ≠ "MATCH (n) RETURN n" := by
  refine ⟨by decide, by decide⟩

/-- The call trace returned by the lookup loop extends its accumulator. -/
theorem lookupLoop_trace_extends (env : Env) (schema question : String) :
    ∀ (fuel : Nat) (err : String) (steps : List Step) (calls : List Call),
      ∃ t, (lookupLoop env schema question fuel err steps calls).2 = calls ++ t := by
  intro fuel
  induction fuel with
  | zero =>
    intro err steps calls
    exact ⟨[], by simp [lookupLoop]⟩
  | succ n ih =>
    intro err steps calls
    cases h : env.llm (cypherPrompt ⟨schema, exampleText, question, ""⟩) with
    | error e =>
      simp only [lookupLoop, h]
      exact ⟨[Call.cypher ⟨schema, exampleText, question, ""⟩], rfl⟩
    | ok completion =>
      cases hg : env.graph (pyStrip completion) with
      | ok rows =>
        simp only [lookupLoop, h, hg]
        exact ⟨[Call.cypher ⟨schema, exampleText, question, ""⟩] ++
          [Call.graph (pyStrip completion)], by simp⟩
      | error e =>
        simp only [lookupLoop, h, hg]
        obtain ⟨t, ht⟩ := ih e
          (steps ++ [Step.cypherQueryGenerationAttempt (pyStrip completion)])
          ((calls ++ [Call.cypher ⟨schema, exampleText, question, ""⟩]) ++
            [Call.graph (pyStrip completion)])
        rw [ht]
        exact ⟨([Call.cypher ⟨schema, exampleText, question, ""⟩] ++
          [Call.graph (pyStrip completion)]) ++ t, by simp⟩

/-- Every cypher-chain invocation the lookup loop adds to the trace carries the
same arguments: the schema, the few-shot example text, the question, and an
empty error_correction. -/
theorem lookupLoop_cypherCalls (env : Env) (schema question : String) :
    ∀ (fuel : Nat) (err : String) (steps : List Step) (calls : List Call),
      ∃ k, cypherCalls (lookupLoop env schema question fuel err steps calls).2 =
        cypherCalls calls ++ List.replicate k ⟨schema, exampleText, question, ""⟩ := by
  intro fuel
  induction fuel with
  | zero =>
    intro err steps calls
    exact ⟨0, by simp [lookupLoop]⟩
  | succ n ih =>
    intro err steps calls
    cases h : env.llm (cypherPrompt ⟨schema, exampleText, question, ""⟩) with
    | error e =>
      simp only [lookupLoop, h]
      refine ⟨1, ?_⟩
      simp [cypherCalls, List.filterMap_append]
    | ok completion =>
      cases hg : env.graph (pyStrip completion) with
      | ok rows =>
        simp only [lookupLoop, h, hg]
        refine ⟨1, ?_⟩
        simp [cypherCalls, List.filterMap_append]
      | error e =>
        simp only [lookupLoop, h, hg]
        obtain ⟨k, hk⟩ := ih e
          (steps ++ [Step.cypherQueryGenerationAttempt (pyStrip completion)])
          ((calls ++ [Call.cypher ⟨schema, exampleText, question, ""⟩]) ++
            [Call.graph (pyStrip completion)])
        rw [hk]
        refine ⟨k + 1, ?_⟩
        simp [cypherCalls, List.filterMap_append, List.replicate_succ]

/-- When the model always yields completion c for the loop's prompt and every
execution of the stripped query fails with error e, the loop with positive
fuel performs exactly fuel generation/execution call pairs, appends fuel
generation-attempt steps, and returns the failure text carrying e. -/
theorem lookupLoop_step_error (env : Env) (schema question c e : String)
    (hl : env.llm (cypherPrompt ⟨schema, exampleText, question, ""⟩) = Except.ok c)
    (hg : env.graph (pyStrip c) = Except.error e) (fuel : Nat) (err : String)
    (steps : List Step) (calls : List Call) :
    lookupLoop env schema question (fuel + 1) err steps calls =
      lookupLoop env schema question fuel e
        (steps ++ [Step.cypherQueryGenerationAttempt (pyStrip c)])
        ((calls ++ [Call.cypher ⟨schema, exampleText, question, ""⟩]) ++
          [Call.graph (pyStrip c)]) := by
  conv_lhs => rw [lookupLoop]
  simp only [hl, hg]

theorem lookupLoop_allFail (env : Env) (schema question c e : String)
    (hl : env.llm (cypherPrompt ⟨schema, exampleText, question, ""⟩) = Except.ok c)
    (hg : env.graph (pyStrip c) = Except.error e) :
    ∀ (fuel : Nat) (err : String) (steps : List Step) (calls : List Call),
      lookupLoop env schema question (fuel + 1) err steps calls =
        (Except.ok [("result", PyVal.str (failureText e)),
                    ("intermediate_steps",
                     PyVal.stepList (steps ++ List.replicate (fuel + 1)
                       (Step.cypherQueryGenerationAttempt (pyStrip c))))],
         calls ++ List.flatten (List.replicate (fuel + 1)
           [Call.cypher ⟨schema, exampleText, question, ""⟩, Call.graph (pyStrip c)])) := by
  intro fuel
  induction fuel with
  | zero =>
    intro err steps calls
    rw [lookupLoop_step_error env schema question c e hl hg 0 err steps calls]
    simp only [lookupLoop]
    simp
  | succ n ih =>
    intro err steps calls
    rw [lookupLoop_step_error env schema question c e hl hg (n + 1) err steps calls,
      ih e (steps ++ [Step.cypherQueryGenerationAttempt (pyStrip c)])
        ((calls ++ [Call.cypher ⟨schema, exampleText, question, ""⟩]) ++
          [Call.graph (pyStrip c)])]
    simp only [Prod.mk.injEq]
    constructor
    · simp [List.replicate_succ]
    · simp [List.replicate_succ, List.flatten_cons]

/-- The cypher-chain arguments in fuel repetitions of the loop's call pair. -/
theorem cypherCalls_flatten_replicate (n : Nat) (a : CypherArgs) (q : String) :
    cypherCalls (List.flatten (List.replicate n [Call.cypher a, Call.graph q])) =
      List.replicate n a := by
  induction n with
  | zero => rfl
  | succ m ih =>
    simp only [List.replicate_succ, List.flatten_cons, cypherCalls,
      List.filterMap_append] at ih ⊢
    simp only [ih]
    rfl

/-- C2, amended: writing max_retries for the loop's budget parameter, a run in
which every execution fails performs exactly max_retries + 1 generation calls
(the code counts the budget as retries after the first call, not as total
generation calls); the recorded intermediate steps gain one generation-attempt
entry per attempt and no Failed markers, and the result is the failure text
carrying the last error message. -/
theorem C2_amended_thm (env : Env) (schema question c e : String) (steps : List Step)
    (max_retries : Nat)
    (hl : env.llm (cypherPrompt ⟨schema, exampleText, question, ""⟩) = Except.ok c)
    (hg : env.graph (pyStrip c) = Except.error e) :
    (cypherCalls (handleCypherLookup env schema question steps max_retries).2).length =
      max_retries + 1 ∧
    (handleCypherLookup env schema question steps max_retries).1 =
      Except.ok [("result", PyVal.str (failureText e)),
                 ("intermediate_steps",
                  PyVal.stepList (steps ++ List.replicate (max_retries + 1)
                    (Step.cypherQueryGenerationAttempt (pyStrip c))))] := by
  have h := lookupLoop_allFail env schema question c e hl hg max_retries "" steps []
  unfold handleCypherLookup
  rw [h]
  constructor
  · simp [cypherCalls_flatten_replicate]
  · rfl

/-- Witness for C2_amended_thm: with budget 1 and a graph backend that rejects
everything, the run makes 2 generation calls and ends in the failure text. -/
theorem C2_amended_witness :
    (cypherCalls (handleCypherLookup envFailGraph "S" "q" [] 1).2).length = 1 + 1 ∧
    (handleCypherLookup envFailGraph "S" "q" [] 1).1 =
      Except.ok [("result", PyVal.str (failureText "Neo.ClientError: invalid input")),
                 ("intermediate_steps",
                  PyVal.stepList ([] ++ List.replicate (1 + 1)
                    (Step.cypherQueryGenerationAttempt
                      (pyStrip " MATCH (n) RETURN n "))))] :=
  C2_amended_thm envFailGraph "S" "q" " MATCH (n) RETURN n "
    "Neo.ClientError: invalid input" [] 1 rfl rfl

/-- C1, amended: the correction fragment is the empty string on every
generation attempt, failures included - each cypher-chain invocation of the
lookup handler carries exactly the schema, the fixed few-shot example text,
the question, and an empty error_correction (which the prompt template
ignores, having no matching placeholder), so no attempt's prompt ever
contains the previous attempt's query or error message. -/
theorem C1_amended_thm (env : Env) (schema question : String) (steps : List Step)
    (max_retries : Nat) :
    ∃ k, cypherCalls (handleCypherLookup env schema question steps max_retries).2 =
        List.replicate k ⟨schema, exampleText, question, ""⟩ ∧
      (cypherCalls (handleCypherLookup env schema question steps max_retries).2).map
        CypherArgs.error_correction = List.replicate k "" := by
  obtain ⟨k, hk⟩ :=
    lookupLoop_cypherCalls env schema question (max_retries + 1) "" steps []
  refine ⟨k, ?_, ?_⟩
  · unfold handleCypherLookup
    rw [hk]
    rfl
  · unfold handleCypherLookup
    rw [hk]
    simp [cypherCalls, List.map_replicate]

/-- With a model backend that always completes, the lookup loop never raises:
its result component is always a normally returned dict. -/
theorem lookupLoop_isOk (env : Env) (schema question : String)
    (hl : ∀ p, ∃ c, env.llm p = Except.ok c) :
    ∀ (fuel : Nat) (err : String) (steps : List Step) (calls : List Call),
      (lookupLoop env schema question fuel err steps calls).1.isOk = true := by
  intro fuel
  induction fuel with
  | zero =>
    intro err steps calls
    rfl
  | succ n ih =>
    intro err steps calls
    obtain ⟨c, hc⟩ := hl (cypherPrompt ⟨schema, exampleText, question, ""⟩)
    cases hg : env.graph (pyStrip c) with
    | ok rows =>
      conv_lhs => rw [lookupLoop]
      simp only [hc, hg]
      rfl
    | error e =>
      rw [lookupLoop_step_error env schema question c e hc hg n err steps calls]
      exact ih e (steps ++ [Step.cypherQueryGenerationAttempt (pyStrip c)])
        ((calls ++ [Call.cypher ⟨schema, exampleText, question, ""⟩]) ++
          [Call.graph (pyStrip c)])

/-- With a model backend that always completes, the explanation handler never
raises: its result component is always a normally returned dict. -/
theorem handleMethodExplanation_isOk (env : Env) (schema question : String)
    (steps : List Step) (hl : ∀ p, ∃ c, env.llm p = Except.ok c) :
    (handleMethodExplanation env schema question steps).1.isOk = true := by
  obtain ⟨c, hc⟩ := hl (cypherPrompt ⟨schema, "", question, ""⟩)
  cases hg : env.graph (pyStrip c) with
  | error e =>
    simp only [handleMethodExplanation, hc, hg]
    rfl
  | ok code_data =>
    cases code_data with
    | nil =>
      simp only [handleMethodExplanation, hc, hg]
      rfl
    | cons row0 rest =>
      cases hrow : row0.lookup "source_code" with
      | none =>
        simp only [handleMethodExplanation, hc, hg, hrow]
        rfl
      | some source_code =>
        obtain ⟨c2, hc2⟩ := hl (explanationPrompt source_code)
        simp only [handleMethodExplanation, hc, hg, hrow, hc2]
        rfl

/-- C3, amended: run_query never raises provided every model call returns a
completion - graph-execution failures in both handlers and an explanation
model failure inside the explanation try block are all captured into the
result field of a normally returned envelope.  A model transport failure in
the router or in query generation, however, propagates out of run_query as an
exception (see the counterexample). -/
theorem C3_amended_thm (env : Env) (schema question : String) (d : Nat)
    (hl : ∀ p, ∃ c, env.llm p = Except.ok c) :
    (run_query env schema question d).1.isOk = true := by
  obtain ⟨c, hc⟩ := hl (routerPrompt question)
  simp only [run_query, hc]
  by_cases h1 : pyLower (pyStrip c) = "method_explanation"
  · rw [if_pos h1]
    have hme := handleMethodExplanation_isOk env schema question
      [Step.recognizedIntent (pyLower (pyStrip c))] hl
    rcases hp : handleMethodExplanation env schema question
      [Step.recognizedIntent (pyLower (pyStrip c))] with ⟨res, calls⟩
    rw [hp] at hme
    cases res with
    | error e => exact Bool.noConfusion hme
    | ok envl => rfl
  · rw [if_neg h1]
    by_cases h2 : pyLower (pyStrip c) = "cypher_lookup"
    · rw [if_pos h2]
      have hcl : (handleCypherLookup env schema question
          [Step.recognizedIntent (pyLower (pyStrip c))] 1).1.isOk = true :=
        lookupLoop_isOk env schema question hl (1 + 1) ""
          [Step.recognizedIntent (pyLower (pyStrip c))] []
      rcases hp : handleCypherLookup env schema question
        [Step.recognizedIntent (pyLower (pyStrip c))] 1 with ⟨res, calls⟩
      rw [hp] at hcl
      cases res with
      | error e => exact Bool.noConfusion hcl
      | ok envl => rfl
    · rw [if_neg h2]
      rfl

/-- Witness for C3_amended_thm: with a stub model that always answers "ok",
run_query returns normally. -/
theorem C3_amended_witness : (run_query envOk "S" "q" 0).1.isOk = true :=
  C3_amended_thm envOk "S" "q" 0 (fun _ => ⟨"ok", rfl⟩)

/-- A character absent from the accumulator, the separator and every remaining
piece is absent from the result of the intercalation loop. -/
theorem mem_data_intercalate_go (c : Char) (sep : String) :
    ∀ (as : List String) (acc : String), c ∉ acc.data → c ∉ sep.data →
      (∀ x ∈ as, c ∉ x.data) →
      c ∉ (String.intercalate.go acc sep as).data := by
  intro as
  induction as with
  | nil =>
    intro acc hacc _ _
    simpa [String.intercalate.go] using hacc
  | cons a as ih =>
    intro acc hacc hsep hall
    rw [String.intercalate.go]
    apply ih
    · intro hmem
      simp only [String.data_append, List.mem_append] at hmem
      rcases hmem with (h | h) | h
      · exact hacc h
      · exact hsep h
      · exact hall a (by simp) h
    · exact hsep
    · intro x hx
      exact hall x (by simp [hx])

/-- A character absent from the separator and from every list element is
absent from their intercalation. -/
theorem mem_data_intercalate (c : Char) (sep : String) (xs : List String)
    (hsep : c ∉ sep.data) (hxs : ∀ x ∈ xs, c ∉ x.data) :
    c ∉ (String.intercalate sep xs).data := by
  cases xs with
  | nil => simp [String.intercalate]
  | cons a as =>
    rw [String.intercalate]
    exact mem_data_intercalate_go c sep as a (hxs a (by simp)) hsep
      (fun x hx => hxs x (by simp [hx]))

/-- C4, amended: the schema summary consists of the node label names and the
bare relationship-type names, one "- "-prefixed line each; it carries no
source/target category pattern syntax - any character that occurs in none of
the labels, none of the relationship-type names and not in the fixed headers
(for instance the parentheses, brackets and arrows of a
(source)-[label]->(target) pattern) does not occur in the summary at all. -/
theorem C4_amended_thm (node_labels relationship_types : List String) (c : Char)
    (hH1 : c ∉ "Node Labels:\n".data)
    (hH2 : c ∉ "\n\nRelationships:\n".data)
    (hH3 : c ∉ "- ".data)
    (hH4 : c ∉ "\n".data)
    (h1 : ∀ l ∈ node_labels, c ∉ l.data)
    (h2 : ∀ r ∈ relationship_types, c ∉ r.data) :
    c ∉ (get_concise_schema node_labels relationship_types).data := by
  have hpiece : ∀ (xs : List String), (∀ x ∈ xs, c ∉ x.data) →
      c ∉ (String.intercalate "\n" (xs.map (fun l => "- " ++ l))).data := by
    intro xs hxs
    apply mem_data_intercalate c "\n" _ hH4
    intro x hx
    obtain ⟨l, hl, rfl⟩ := List.mem_map.mp hx
    intro hmem
    simp only [String.data_append, List.mem_append] at hmem
    rcases hmem with h | h
    · exact hH3 h
    · exact hxs l hl h
  unfold get_concise_schema
  intro hmem
  simp only [String.data_append, List.mem_append] at hmem
  rcases hmem with ((h | h) | h) | h
  · exact hH1 h
  · exact hpiece node_labels h1 h
  · exact hH2 h
  · exact hpiece relationship_types h2 h

/-- Witness for C4_amended_thm: with labels Class and Method and relationship
type HAS_METHOD, no parenthesis occurs anywhere in the summary, so no
(source)-[label]->(target) pattern can be present. -/
theorem C4_amended_witness :
    '(' ∉ (get_concise_schema ["Class", "Method"] ["HAS_METHOD"]).data :=
  C4_amended_thm ["Class", "Method"] ["HAS_METHOD"] '(' (by decide) (by decide)
    (by decide) (by decide) (by decide) (by decide)

/-- C5, amended: when the fetch query executes normally and returns either no
rows or a first row without a source_code key, the explanation handler
returns the one fixed message (the same text in both cases, not two distinct
ones) and never invokes the explanation chain; a present-but-empty
source_code value is not treated as unavailable (see the counterexample). -/
theorem C5_amended_thm (env : Env) (schema question : String) (steps : List Step)
    (c : String)
    (hl : env.llm (cypherPrompt ⟨schema, "", question, ""⟩) = Except.ok c)
    (hg : env.graph (pyStrip c) = Except.ok [] ∨
      ∃ row rest, env.graph (pyStrip c) = Except.ok (row :: rest) ∧
        row.lookup "source_code" = none) :
    (handleMethodExplanation env schema question steps).1 =
      Except.ok [("result", PyVal.str notFoundText),
                 ("intermediate_steps",
                  PyVal.stepList (steps ++ [Step.fetchCodeCypher (pyStrip c)]))] ∧
    explanationCalls (handleMethodExplanation env schema question steps).2 = [] := by
  rcases hg with hg | ⟨row, rest, hg, hrow⟩
  · constructor
    · simp only [handleMethodExplanation, hl, hg]
    · simp only [handleMethodExplanation, hl, hg]
      rfl
  · constructor
    · simp only [handleMethodExplanation, hl, hg, hrow]
    · simp only [handleMethodExplanation, hl, hg, hrow]
      rfl

/-- Witness for C5_amended_thm: a stub backend returning no rows yields the
fixed message and zero explanation-chain calls. -/
theorem C5_amended_witness :
    (handleMethodExplanation envEmptyRows "S" "q" []).1 =
      Except.ok [("result", PyVal.str notFoundText),
                 ("intermediate_steps",
                  PyVal.stepList ([] ++ [Step.fetchCodeCypher (pyStrip "FETCH")]))] ∧
    explanationCalls (handleMethodExplanation envEmptyRows "S" "q" []).2 = [] :=
  C5_amended_thm envEmptyRows "S" "q" [] "FETCH" rfl (Or.inl rfl)

/-- C6: an execution that succeeds with zero rows terminates the loop on the
first attempt with a Success status step (never a Failed marker), and the
returned result is the empty row list - a rows value, which is distinct from
every failure-text string value. -/
theorem C6_thm (env : Env) (schema question : String) (steps : List Step)
    (max_retries : Nat) (c : String)
    (hl : env.llm (cypherPrompt ⟨schema, exampleText, question, ""⟩) = Except.ok c)
    (hg : env.graph (pyStrip c) = Except.ok []) :
    handleCypherLookup env schema question steps max_retries =
      (Except.ok [("result", PyVal.rows []),
                  ("intermediate_steps",
                   PyVal.stepList ((steps ++ [Step.cypherQueryGenerationAttempt (pyStrip c)]) ++
                     [Step.statusMsg "Success"]))],
       [Call.cypher ⟨schema, exampleText, question, ""⟩, Call.graph (pyStrip c)]) ∧
    ∀ m : String, (PyVal.rows [] : PyVal) ≠ PyVal.str m := by
  constructor
  · unfold handleCypherLookup
    conv_lhs => rw [lookupLoop]
    simp only [hl, hg]
    simp
  · intro m h
    exact PyVal.noConfusion h

/-- Witness for C6_thm: a stub executor that accepts the query and returns no
rows yields a Success step and the empty row list. -/
theorem C6_witness :
    handleCypherLookup envEmptyRows "S" "q" [] 1 =
      (Except.ok [("result", PyVal.rows []),
                  ("intermediate_steps",
                   PyVal.stepList (([] ++ [Step.cypherQueryGenerationAttempt (pyStrip "FETCH")]) ++
                     [Step.statusMsg "Success"]))],
       [Call.cypher ⟨"S", exampleText, "q", ""⟩, Call.graph (pyStrip "FETCH")]) ∧
    ∀ m : String, (PyVal.rows [] : PyVal) ≠ PyVal.str m :=
  C6_thm envEmptyRows "S" "q" [] 1 "FETCH" rfl rfl

/-- C7: when the stripped, lowercased router completion is neither recognized
intent label, run_query returns the fixed apology text and performs no other
external call: no query generation, no graph execution, no explanation call. -/
theorem C7_thm (env : Env) (schema question : String) (d : Nat) (c : String)
    (hl : env.llm (routerPrompt question) = Except.ok c)
    (h1 : pyLower (pyStrip c) ≠ "method_explanation")
    (h2 : pyLower (pyStrip c) ≠ "cypher_lookup") :
    run_query env schema question d =
      (Except.ok [("result", PyVal.str apologyText),
                  ("intermediate_steps",
                   PyVal.stepList [Step.recognizedIntent (pyLower (pyStrip c))]),
                  ("duration_seconds", PyVal.num d)],
       [Call.router (routerPrompt question)]) := by
  simp only [run_query, hl]
  rw [if_neg h1, if_neg h2]
  rfl

/-- Witness for C7_thm: the completion "ok" matches neither label, so the run
returns the apology with only the router call in the trace. -/
theorem C7_witness :
    run_query envOk "S" "q" 7 =
      (Except.ok [("result", PyVal.str apologyText),
                  ("intermediate_steps",
                   PyVal.stepList [Step.recognizedIntent (pyLower (pyStrip "ok"))]),
                  ("duration_seconds", PyVal.num 7)],
       [Call.router (routerPrompt "q")]) :=
  C7_thm envOk "S" "q" 7 "ok" rfl (by decide) (by decide)

/-- C8, amended: the query string handed to the graph backend is exactly the
model completion with surrounding whitespace stripped - no code-fence
stripping and no syntax validation happen in either handler. -/
theorem C8_amended_thm (env : Env) (schema question : String) (steps : List Step)
    (max_retries : Nat) (cl ce : String)
    (hl : env.llm (cypherPrompt ⟨schema, exampleText, question, ""⟩) = Except.ok cl)
    (he : env.llm (cypherPrompt ⟨schema, "", question, ""⟩) = Except.ok ce) :
    (graphCalls (handleCypherLookup env schema question steps max_retries).2).head? =
      some (pyStrip cl) ∧
    graphCalls (handleMethodExplanation env schema question steps).2 = [pyStrip ce] := by
  constructor
  · unfold handleCypherLookup
    cases hg : env.graph (pyStrip cl) with
    | ok rows =>
      conv_lhs => rw [lookupLoop]
      simp only [hl, hg]
      rfl
    | error e =>
      rw [lookupLoop_step_error env schema question cl e hl hg max_retries "" steps []]
      obtain ⟨t, ht⟩ := lookupLoop_trace_extends env schema question max_retries e
        (steps ++ [Step.cypherQueryGenerationAttempt (pyStrip cl)])
        (([] ++ [Call.cypher ⟨schema, exampleText, question, ""⟩]) ++
          [Call.graph (pyStrip cl)])
      rw [ht]
      simp [graphCalls, List.filterMap_append]
  · cases hg : env.graph (pyStrip ce) with
    | error e =>
      simp only [handleMethodExplanation, he, hg]
      rfl
    | ok code_data =>
      cases code_data with
      | nil =>
        simp only [handleMethodExplanation, he, hg]
        rfl
      | cons row0 rest =>
        cases hrow : row0.lookup "source_code" with
        | none =>
          simp only [handleMethodExplanation, he, hg, hrow]
          rfl
        | some src =>
          cases hc2 : env.llm (explanationPrompt src) with
          | ok c2 =>
            simp only [handleMethodExplanation, he, hg, hrow, hc2]
            rfl
          | error e2 =>
            simp only [handleMethodExplanation, he, hg, hrow, hc2]
            rfl

/-- Witness for C8_amended_thm: a fenced completion has no surrounding
whitespace, so the executed query is the fenced block itself. -/
theorem C8_amended_witness :
    (graphCalls (handleCypherLookup envFences "S" "q" [] 1).2).head? =
      some (pyStrip "```\nMATCH (n) RETURN n\n```") ∧
    graphCalls (handleMethodExplanation envFences "S" "q" []).2 =
      [pyStrip "```\nMATCH (n) RETURN n\n```"] :=
  C8_amended_thm envFences "S" "q" [] 1 "```\nMATCH (n) RETURN n\n```"
    "```\nMATCH (n) RETURN n\n```" rfl rfl

/-- A normally returned lookup-loop dict has exactly the keys result and
intermediate_steps, and its step list extends the incoming steps. -/
theorem lookupLoop_shape (env : Env) (schema question : String) :
    ∀ (fuel : Nat) (err : String) (steps : List Step) (calls : List Call)
      (envl : Envelope),
      (lookupLoop env schema question fuel err steps calls).1 = Except.ok envl →
      ∃ rv ext, envl = [("result", rv),
        ("intermediate_steps", PyVal.stepList (steps ++ ext))] := by
  intro fuel
  induction fuel with
  | zero =>
    intro err steps calls envl h
    simp only [lookupLoop] at h
    injection h with h
    exact ⟨PyVal.str (failureText err), [], by simp [← h]⟩
  | succ n ih =>
    intro err steps calls envl h
    cases hc : env.llm (cypherPrompt ⟨schema, exampleText, question, ""⟩) with
    | error e =>
      rw [lookupLoop] at h
      simp only [hc] at h
      simp at h
    | ok c =>
      cases hg : env.graph (pyStrip c) with
      | ok rows =>
        rw [lookupLoop] at h
        simp only [hc, hg] at h
        injection h with h
        exact ⟨PyVal.rows rows,
          [Step.cypherQueryGenerationAttempt (pyStrip c), Step.statusMsg "Success"],
          by simp [← h]⟩
      | error e =>
        rw [lookupLoop_step_error env schema question c e hc hg n err steps calls] at h
        obtain ⟨rv, ext, hx⟩ := ih e
          (steps ++ [Step.cypherQueryGenerationAttempt (pyStrip c)])
          ((calls ++ [Call.cypher ⟨schema, exampleText, question, ""⟩]) ++
            [Call.graph (pyStrip c)]) envl h
        exact ⟨rv, [Step.cypherQueryGenerationAttempt (pyStrip c)] ++ ext,
          by simp [hx]⟩

/-- A normally returned explanation-handler dict has exactly the keys result
and intermediate_steps, and its step list extends the incoming steps. -/
theorem handleMethodExplanation_shape (env : Env) (schema question : String)
    (steps : List Step) (envl : Envelope)
    (h : (handleMethodExplanation env schema question steps).1 = Except.ok envl) :
    ∃ rv ext, envl = [("result", rv),
      ("intermediate_steps", PyVal.stepList (steps ++ ext))] := by
  cases hc : env.llm (cypherPrompt ⟨schema, "", question, ""⟩) with
  | error e =>
    simp only [handleMethodExplanation, hc] at h
    simp at h
  | ok c =>
    cases hg : env.graph (pyStrip c) with
    | error e =>
      simp only [handleMethodExplanation, hc, hg] at h
      injection h with h
      exact ⟨PyVal.str (errorOccurredText e), [Step.fetchCodeCypher (pyStrip c)],
        by simp [← h]⟩
    | ok code_data =>
      cases code_data with
      | nil =>
        simp only [handleMethodExplanation, hc, hg] at h
        injection h with h
        exact ⟨PyVal.str notFoundText, [Step.fetchCodeCypher (pyStrip c)],
          by simp [← h]⟩
      | cons row0 rest =>
        cases hrow : row0.lookup "source_code" with
        | none =>
          simp only [handleMethodExplanation, hc, hg, hrow] at h
          injection h with h
          exact ⟨PyVal.str notFoundText, [Step.fetchCodeCypher (pyStrip c)],
            by simp [← h]⟩
        | some src =>
          cases hc2 : env.llm (explanationPrompt src) with
          | error e2 =>
            simp only [handleMethodExplanation, hc, hg, hrow, hc2] at h
            injection h with h
            exact ⟨PyVal.str (errorOccurredText e2),
              [Step.fetchCodeCypher (pyStrip c),
               Step.statusMsg "Source code retrieved successfully."],
              by simp [← h]⟩
          | ok c2 =>
            simp only [handleMethodExplanation, hc, hg, hrow, hc2] at h
            injection h with h
            exact ⟨PyVal.str c2,
              [Step.fetchCodeCypher (pyStrip c),
               Step.statusMsg "Source code retrieved successfully."],
              by simp [← h]⟩

/-- C9: whenever run_query returns normally, the envelope has exactly the
keys result, intermediate_steps and duration_seconds (in insertion order),
and the first intermediate step records the recognized intent, the stripped
and lowercased router completion; this holds on the lookup, explanation and
unknown-intent paths alike. -/
theorem C9_thm (env : Env) (schema question : String) (d : Nat) (envl : Envelope)
    (calls : List Call)
    (h : run_query env schema question d = (Except.ok envl, calls)) :
    (∃ c rv rest, env.llm (routerPrompt question) = Except.ok c ∧
      envl = [("result", rv),
              ("intermediate_steps",
               PyVal.stepList (Step.recognizedIntent (pyLower (pyStrip c)) :: rest)),
              ("duration_seconds", PyVal.num d)]) ∧
    envl.map Prod.fst = ["result", "intermediate_steps", "duration_seconds"] := by
  cases hc : env.llm (routerPrompt question) with
  | error e =>
    simp only [run_query, hc] at h
    simp at h
  | ok c =>
    simp only [run_query, hc] at h
    have main : ∃ rv rest, envl = [("result", rv),
        ("intermediate_steps",
         PyVal.stepList (Step.recognizedIntent (pyLower (pyStrip c)) :: rest)),
        ("duration_seconds", PyVal.num d)] := by
      by_cases h1 : pyLower (pyStrip c) = "method_explanation"
      · rw [if_pos h1] at h
        rcases hp : handleMethodExplanation env schema question
          [Step.recognizedIntent (pyLower (pyStrip c))] with ⟨res, cs⟩
        rw [hp] at h
        cases res with
        | error e => simp at h
        | ok envl2 =>
          simp only [Prod.mk.injEq] at h
          obtain ⟨henv, _⟩ := h
          injection henv with henv
          obtain ⟨rv, ext, hx⟩ := handleMethodExplanation_shape env schema question
            [Step.recognizedIntent (pyLower (pyStrip c))] envl2 (by rw [hp])
          refine ⟨rv, ext, ?_⟩
          rw [← henv, hx]
          rfl
      · rw [if_neg h1] at h
        by_cases h2 : pyLower (pyStrip c) = "cypher_lookup"
        · rw [if_pos h2] at h
          rcases hp : handleCypherLookup env schema question
            [Step.recognizedIntent (pyLower (pyStrip c))] 1 with ⟨res, cs⟩
          rw [hp] at h
          cases res with
          | error e => simp at h
          | ok envl2 =>
            simp only [Prod.mk.injEq] at h
            obtain ⟨henv, _⟩ := h
            injection henv with henv
            obtain ⟨rv, ext, hx⟩ := lookupLoop_shape env schema question (1 + 1) ""
              [Step.recognizedIntent (pyLower (pyStrip c))] [] envl2
              (by show (handleCypherLookup env schema question
                    [Step.recognizedIntent (pyLower (pyStrip c))] 1).1 = Except.ok envl2
                  rw [hp])
            refine ⟨rv, ext, ?_⟩
            rw [← henv, hx]
            rfl
        · rw [if_neg h2] at h
          simp only [Prod.mk.injEq] at h
          obtain ⟨henv, _⟩ := h
          injection henv with henv
          exact ⟨PyVal.str apologyText, [], by rw [← henv]; rfl⟩
    obtain ⟨rv, rest, hx⟩ := main
    refine ⟨⟨c, rv, rest, rfl, hx⟩, ?_⟩
    rw [hx]
    rfl

/-- Witness for C9_thm: a stub whose router completion "ok" matches no label
still returns the three-key envelope with the recognized intent first. -/
theorem C9_witness :
    (∃ c rv rest, envOk.llm (routerPrompt "q") = Except.ok c ∧
      ([("result", PyVal.str apologyText),
        ("intermediate_steps", PyVal.stepList [Step.recognizedIntent "ok"]),
        ("duration_seconds", PyVal.num 3)] : Envelope) =
        [("result", rv),
         ("intermediate_steps",
          PyVal.stepList (Step.recognizedIntent (pyLower (pyStrip c)) :: rest)),
         ("duration_seconds", PyVal.num 3)]) ∧
    ([("result", PyVal.str apologyText),
      ("intermediate_steps", PyVal.stepList [Step.recognizedIntent "ok"]),
      ("duration_seconds", PyVal.num 3)] : Envelope).map Prod.fst =
      ["result", "intermediate_steps", "duration_seconds"] :=
  C9_thm envOk "S" "q" 3
    [("result", PyVal.str apologyText),
     ("intermediate_steps", PyVal.stepList [Step.recognizedIntent "ok"]),
     ("duration_seconds", PyVal.num 3)]
    [Call.router (routerPrompt "q")] rfl

/-- C10: the explanation handler inspects only the first row of the fetch
result - two environments that agree on the model and return the same first
row (with arbitrary, different tails) produce identical outputs; whether
source code is available is decided solely by the presence of the source_code
key in row 0 (absent: the fixed message; present: the explanation chain is
invoked on that value). -/
theorem C10_thm (env1 env2 : Env) (schema question : String) (steps : List Step)
    (c : String) (row : Row) (rest1 rest2 : List Row)
    (hll : env1.llm = env2.llm)
    (hl : env1.llm (cypherPrompt ⟨schema, "", question, ""⟩) = Except.ok c)
    (hg1 : env1.graph (pyStrip c) = Except.ok (row :: rest1))
    (hg2 : env2.graph (pyStrip c) = Except.ok (row :: rest2)) :
    handleMethodExplanation env1 schema question steps =
      handleMethodExplanation env2 schema question steps ∧
    (row.lookup "source_code" = none →
      (handleMethodExplanation env1 schema question steps).1 =
        Except.ok [("result", PyVal.str notFoundText),
                   ("intermediate_steps",
                    PyVal.stepList (steps ++ [Step.fetchCodeCypher (pyStrip c)]))]) ∧
    (∀ src, row.lookup "source_code" = some src →
      explanationCalls (handleMethodExplanation env1 schema question steps).2 = [src]) := by
  have hl2 : env2.llm (cypherPrompt ⟨schema, "", question, ""⟩) = Except.ok c := by
    rw [← hll]
    exact hl
  refine ⟨?_, ?_, ?_⟩
  · cases hrow : row.lookup "source_code" with
    | none =>
      simp only [handleMethodExplanation, hl, hl2, hg1, hg2, hrow]
    | some src =>
      simp only [handleMethodExplanation, hl, hl2, hg1, hg2, hrow]
      rw [hll]
  · intro hrow
    simp only [handleMethodExplanation, hl, hg1, hrow]
  · intro src hrow
    cases hc2 : env1.llm (explanationPrompt src) with
    | ok c2 =>
      simp only [handleMethodExplanation, hl, hg1, hrow, hc2]
      rfl
    | error e =>
      simp only [handleMethodExplanation, hl, hg1, hrow, hc2]
      rfl

/-- Witness for C10_thm: a backend returning an extra second row behaves
exactly like one returning only the first row. -/
theorem C10_witness :
    handleMethodExplanation envTwoRows "S" "q" [] =
      handleMethodExplanation envOneRow "S" "q" [] ∧
    (([("source_code", "def f(): pass")] : Row).lookup "source_code" = none →
      (handleMethodExplanation envTwoRows "S" "q" []).1 =
        Except.ok [("result", PyVal.str notFoundText),
                   ("intermediate_steps",
                    PyVal.stepList ([] ++ [Step.fetchCodeCypher (pyStrip "FETCH")]))]) ∧
    (∀ src, ([("source_code", "def f(): pass")] : Row).lookup "source_code" = some src →
      explanationCalls (handleMethodExplanation envTwoRows "S" "q" []).2 = [src]) :=
  C10_thm envTwoRows envOneRow "S" "q" [] "FETCH" [("source_code", "def f(): pass")]
    [[("ignored", "x")]] [] rfl rfl rfl rfl
